import Mathlib

/-!
Shallow embedding of the Spy Performance API backend (app/main.py,
app/models.py, app/schemas.py) and proofs about its handlers.

Modelling conventions:
* SQL `Float` columns are modelled as `ℚ` (exact arithmetic; the spec's
  properties are stated up to floating-point tolerance).
* `Date` and `DateTime` values are modelled as `Nat` day numbers (the only
  use the handlers make of a datetime is `payload.date_time.date()`).
* Each table is a list of rows in insertion order; SQLAlchemy's
  `query(...).first()` is `List.find?`, autoincrement primary keys are
  per-table counters carried in the `DB` state.
* A handler is a function from a `DB` and a request payload to the new `DB`
  (plus a response or an `Except` error where the handler can raise
  `HTTPException`).  `log_meal` commits the meal row before validating the
  item food ids, exactly as the source does: on a 400 the meal row stays
  committed while the pending meal items are rolled back with the session.
-/

namespace SpyPerf

/-- Readiness classification (models.ReadinessState). -/
inductive ReadinessState where
  | HIGH
  | MODERATE
  | LOW
  | RECOVERY
deriving DecidableEq, Repr

/-- A row of the `users` table (models.User). -/
structure User where
  id : Nat
  name : String
  birth_date : Option Nat := none
  gender : Option String := none
  height_cm : Option ℚ := none
deriving DecidableEq, Repr

/-- A row of the `user_settings` table (models.UserSettings); the
`created_at` / `updated_at` timestamp columns are not modelled. -/
structure UserSettings where
  id : Nat
  user_id : Nat
  hrv_baseline : Option ℚ := none
  weight_goal_kg : Option ℚ := none
  protein_target_min_g : Option ℚ := none
  protein_target_max_g : Option ℚ := none
  default_maintenance_kcal : Option ℚ := none
deriving DecidableEq, Repr

/-- A row of the `weight_log` table (models.WeightLog). -/
structure WeightLog where
  id : Nat
  user_id : Nat
  weight_kg : ℚ
  date_time : Nat
  source : Option String := none
  note : Option String := none
deriving DecidableEq, Repr

/-- A row of the `food_items` table (models.FoodItem); macros are per 100 g
and the columns carry a 0.0 default. -/
structure FoodItem where
  id : Nat
  name : String
  brand : Option String := none
  protein_g : ℚ := 0
  carbs_g : ℚ := 0
  fat_g : ℚ := 0
  kcal : ℚ := 0
deriving DecidableEq, Repr

/-- A row of the `meals` table (models.Meal). -/
structure Meal where
  id : Nat
  user_id : Nat
  date : Nat
  meal_type : String
  time : Option String := none
  notes : Option String := none
deriving DecidableEq, Repr

/-- A row of the `meal_items` table (models.MealItem): only food_id and
quantity_g, macros are always recomputed from the food. -/
structure MealItem where
  id : Nat
  meal_id : Nat
  food_id : Nat
  quantity_g : ℚ
deriving DecidableEq, Repr

/-- A row of the `training_sessions` table (models.TrainingSession). -/
structure TrainingSession where
  id : Nat
  user_id : Nat
  date : Nat
  type : String
  duration_min : Option ℚ := none
  avg_hr : Option ℚ := none
  max_hr : Option ℚ := none
  calories_kcal : Option ℚ := none
  rpe : Option ℚ := none
  notes : Option String := none
  start_time : Option String := none
  end_time : Option String := none
deriving DecidableEq, Repr

/-- A row of the `sleep_logs` table (models.SleepLog). -/
structure SleepLog where
  id : Nat
  user_id : Nat
  date : Nat
  sleep_duration_min : Option ℚ := none
  resting_hr : Option ℚ := none
  hrv_ms : Option ℚ := none
  recharge_status : Option String := none
  sleep_score : Option ℚ := none
  notes : Option String := none
deriving DecidableEq, Repr

/-- A row of the `ans_logs` table (models.ANSLog). -/
structure ANSLog where
  id : Nat
  user_id : Nat
  date : Nat
  ans_change : Option ℚ := none
  sleep_charge_score : Option ℚ := none
  source : Option String := none
deriving DecidableEq, Repr

/-- A row of the `daily_feel` table (models.DailyFeel). -/
structure DailyFeel where
  id : Nat
  user_id : Nat
  date : Nat
  energy_1_10 : Option Int := none
  fatigue_1_10 : Option Int := none
  soreness_1_10 : Option Int := none
  mood_1_10 : Option Int := none
  performance_feeling_1_10 : Option Int := none
  stress_1_10 : Option Int := none
  notes : Option String := none
deriving DecidableEq, Repr

/-- A row of the `daily_targets` table (models.DailyTargets). -/
structure DailyTargets where
  id : Nat
  user_id : Nat
  date : Nat
  readiness_state : Option ReadinessState := none
  target_protein_min_g : Option ℚ := none
  target_protein_max_g : Option ℚ := none
  target_carbs_g : Option ℚ := none
  target_fat_g : Option ℚ := none
  target_calories_kcal : Option ℚ := none
  training_recommendation : Option String := none
  recovery_recommendation : Option String := none
deriving DecidableEq, Repr

/-- A row of the `daily_log` table (models.DailyLog): the per-user-per-day
header. -/
structure DailyLog where
  id : Nat
  user_id : Nat
  date : Nat
  body_weight_kg : Option ℚ := none
  calories_in_kcal : Option ℚ := none
  calories_out_training_kcal : Option ℚ := none
  calculated_deficit_kcal : Option ℚ := none
  readiness_state : Option ReadinessState := none
deriving DecidableEq, Repr

/-- The whole database state: one list per table, in insertion order, plus
the autoincrement counter of every table. -/
structure DB where
  users : List User := []
  user_settings : List UserSettings := []
  weight_log : List WeightLog := []
  food_items : List FoodItem := []
  meals : List Meal := []
  meal_items : List MealItem := []
  training_sessions : List TrainingSession := []
  sleep_logs : List SleepLog := []
  ans_logs : List ANSLog := []
  daily_feel : List DailyFeel := []
  daily_targets : List DailyTargets := []
  daily_log : List DailyLog := []
  next_user_id : Nat := 1
  next_settings_id : Nat := 1
  next_weight_id : Nat := 1
  next_meal_id : Nat := 1
  next_meal_item_id : Nat := 1
  next_training_id : Nat := 1
  next_sleep_id : Nat := 1
  next_ans_id : Nat := 1
  next_feel_id : Nat := 1
  next_targets_id : Nat := 1
  next_daily_log_id : Nat := 1
deriving DecidableEq, Repr

/-- The empty database right after `Base.metadata.create_all`. -/
def emptyDB : DB := {}

/-- Error raised through FastAPI's HTTPException: status code and detail. -/
structure HTTPError where
  status : Nat
  detail : String
deriving DecidableEq, Repr

/-- schemas.UserCreate. -/
structure UserCreate where
  name : String
  birth_date : Option Nat := none
  gender : Option String := none
  height_cm : Option ℚ := none
deriving DecidableEq, Repr

/-- schemas.WeightLogCreate. -/
structure WeightLogCreate where
  user_id : Nat
  weight_kg : ℚ
  date_time : Option Nat := none
  source : Option String := some "manual"
  note : Option String := none
deriving DecidableEq, Repr

/-- schemas.MealItemCreate. -/
structure MealItemCreate where
  food_id : Nat
  quantity_g : ℚ
deriving DecidableEq, Repr

/-- schemas.MealCreate. -/
structure MealCreate where
  user_id : Nat
  date : Nat
  meal_type : String
  time : Option String := none
  notes : Option String := none
  items : List MealItemCreate
deriving DecidableEq, Repr

/-- schemas.TrainingSessionCreate. -/
structure TrainingSessionCreate where
  user_id : Nat
  date : Nat
  type : String
  duration_min : Option ℚ := none
  avg_hr : Option ℚ := none
  max_hr : Option ℚ := none
  calories_kcal : Option ℚ := none
  rpe : Option ℚ := none
  notes : Option String := none
  start_time : Option String := none
  end_time : Option String := none
deriving DecidableEq, Repr

/-- schemas.SleepLogCreate. -/
structure SleepLogCreate where
  user_id : Nat
  date : Nat
  sleep_duration_min : Option ℚ := none
  resting_hr : Option ℚ := none
  hrv_ms : Option ℚ := none
  recharge_status : Option String := none
  sleep_score : Option ℚ := none
  notes : Option String := none
deriving DecidableEq, Repr

/-- schemas.ANSLogCreate. -/
structure ANSLogCreate where
  user_id : Nat
  date : Nat
  ans_change : Option ℚ := none
  sleep_charge_score : Option ℚ := none
  source : Option String := some "Polar"
deriving DecidableEq, Repr

/-- schemas.DailyFeelCreate. -/
structure DailyFeelCreate where
  user_id : Nat
  date : Nat
  energy_1_10 : Option Int := none
  fatigue_1_10 : Option Int := none
  soreness_1_10 : Option Int := none
  mood_1_10 : Option Int := none
  performance_feeling_1_10 : Option Int := none
  stress_1_10 : Option Int := none
  notes : Option String := none
deriving DecidableEq, Repr

/-- schemas.DailyTargetsCreate. -/
structure DailyTargetsCreate where
  user_id : Nat
  date : Nat
  readiness_state : Option ReadinessState := none
  target_protein_min_g : Option ℚ := none
  target_protein_max_g : Option ℚ := none
  target_carbs_g : Option ℚ := none
  target_fat_g : Option ℚ := none
  target_calories_kcal : Option ℚ := none
  training_recommendation : Option String := none
  recovery_recommendation : Option String := none
deriving DecidableEq, Repr

/-- schemas.DailySummary: the response of GET /summary/daily. -/
structure DailySummary where
  date : Nat
  protein_g : ℚ
  carbs_g : ℚ
  fat_g : ℚ
  calories_in_kcal : ℚ
  training_calories_kcal : ℚ
  deficit_kcal : ℚ
  readiness_state : Option ReadinessState := none
deriving DecidableEq, Repr

/-- Update the first element of the list satisfying `p` with `f`, the
effect of mutating the row returned by `query(...).first()` and committing. -/
def updateFirst (p : α → Bool) (f : α → α) : List α → List α
  | [] => []
  | x :: xs => if p x then f x :: xs else x :: updateFirst p f xs

/-- POST /users (main.create_user): inserts the user, then always inserts a
default settings row (hrv_baseline=41.0, protein target 160-190 g). -/
def create_user (db : DB) (user : UserCreate) : DB × User :=
  let db_user : User :=
    { id := db.next_user_id
      name := user.name
      birth_date := user.birth_date
      gender := user.gender
      height_cm := user.height_cm }
  let settings : UserSettings :=
    { id := db.next_settings_id
      user_id := db_user.id
      hrv_baseline := some 41
      protein_target_min_g := some 160
      protein_target_max_g := some 190 }
  ({ db with
      users := db.users ++ [db_user]
      next_user_id := db.next_user_id + 1
      user_settings := db.user_settings ++ [settings]
      next_settings_id := db.next_settings_id + 1 },
   db_user)

/-- GET /users/\x7buser_id\x7d (main.get_user): 404 when no user has this id. -/
def get_user (db : DB) (user_id : Nat) : Except HTTPError User :=
  match db.users.find? (fun u => u.id == user_id) with
  | none => .error ⟨404, "User not found"⟩
  | some u => .ok u

/-- Row predicate for the daily_log (user_id, date) key. -/
def dailyKey (user_id d : Nat) (r : DailyLog) : Bool :=
  r.user_id == user_id && r.date == d

/-- The daily_log lookup used by the weight, training and summary handlers:
`query(DailyLog).filter(user_id == ..., date == ...).first()`. -/
def findDaily (db : DB) (user_id d : Nat) : Option DailyLog :=
  db.daily_log.find? (dailyKey user_id d)

/-- POST /weight (main.log_weight): inserts the weight_log row and creates or
updates the day's daily_log header, setting body_weight_kg.  `today` stands
for `date.today()`, used when the payload carries no date_time. -/
def log_weight (today : Nat) (db : DB) (payload : WeightLogCreate) : DB :=
  let db_weight : WeightLog :=
    { id := db.next_weight_id
      user_id := payload.user_id
      weight_kg := payload.weight_kg
      date_time := payload.date_time.getD today
      source := payload.source
      note := payload.note }
  let d := payload.date_time.getD today
  let base :=
    { db with
        weight_log := db.weight_log ++ [db_weight]
        next_weight_id := db.next_weight_id + 1 }
  match findDaily db payload.user_id d with
  | none =>
    { base with
        daily_log := db.daily_log ++
          [{ id := db.next_daily_log_id
             user_id := payload.user_id
             date := d
             body_weight_kg := some payload.weight_kg }]
        next_daily_log_id := db.next_daily_log_id + 1 }
  | some _ =>
    { base with
        daily_log := updateFirst (dailyKey payload.user_id d)
          (fun r => { r with body_weight_kg := some payload.weight_kg })
          db.daily_log }

/-- The meal-item loop of main.log_meal: each item's food must exist, else
HTTPException 400; on success the built rows are committed together. -/
def buildMealItems (foods : List FoodItem) (meal_id : Nat) (next_id : Nat) :
    List MealItemCreate → Except HTTPError (List MealItem)
  | [] => .ok []
  | item :: rest =>
    match foods.find? (fun f => f.id == item.food_id) with
    | none => .error ⟨400, "Food item " ++ toString item.food_id ++ " not found"⟩
    | some _ =>
      match buildMealItems foods meal_id (next_id + 1) rest with
      | .error e => .error e
      | .ok built =>
        .ok ({ id := next_id
               meal_id := meal_id
               food_id := item.food_id
               quantity_g := item.quantity_g } :: built)

/-- POST /meals (main.log_meal): the meal row is inserted and COMMITTED
before the items are validated; a missing food then raises 400 and the
pending meal_items (but not the committed meal) are rolled back.  On success
returns the new meal's id. -/
def log_meal (db : DB) (payload : MealCreate) : DB × Except HTTPError Nat :=
  let meal : Meal :=
    { id := db.next_meal_id
      user_id := payload.user_id
      date := payload.date
      meal_type := payload.meal_type
      time := payload.time
      notes := payload.notes }
  let db1 :=
    { db with
        meals := db.meals ++ [meal]
        next_meal_id := db.next_meal_id + 1 }
  match buildMealItems db1.food_items meal.id db1.next_meal_item_id payload.items with
  | .error e => (db1, .error e)
  | .ok built =>
    ({ db1 with
        meal_items := db1.meal_items ++ built
        next_meal_item_id := db1.next_meal_item_id + built.length },
     .ok meal.id)

/-- POST /training (main.log_training): inserts the session and creates the
day's daily_log header with calories_out_training_kcal when absent, or adds
the session's calories to the existing counter. -/
def log_training (db : DB) (payload : TrainingSessionCreate) : DB :=
  let session : TrainingSession :=
    { id := db.next_training_id
      user_id := payload.user_id
      date := payload.date
      type := payload.type
      duration_min := payload.duration_min
      avg_hr := payload.avg_hr
      max_hr := payload.max_hr
      calories_kcal := payload.calories_kcal
      rpe := payload.rpe
      notes := payload.notes
      start_time := payload.start_time
      end_time := payload.end_time }
  let base :=
    { db with
        training_sessions := db.training_sessions ++ [session]
        next_training_id := db.next_training_id + 1 }
  match findDaily db payload.user_id payload.date with
  | none =>
    { base with
        daily_log := db.daily_log ++
          [{ id := db.next_daily_log_id
             user_id := payload.user_id
             date := payload.date
             calories_out_training_kcal := some (payload.calories_kcal.getD 0) }]
        next_daily_log_id := db.next_daily_log_id + 1 }
  | some _ =>
    { base with
        daily_log := updateFirst (dailyKey payload.user_id payload.date)
          (fun r => { r with
            calories_out_training_kcal :=
              some (r.calories_out_training_kcal.getD 0 + payload.calories_kcal.getD 0) })
          db.daily_log }

/-- POST /sleep (main.log_sleep): plain insert. -/
def log_sleep (db : DB) (payload : SleepLogCreate) : DB :=
  { db with
      sleep_logs := db.sleep_logs ++
        [{ id := db.next_sleep_id
           user_id := payload.user_id
           date := payload.date
           sleep_duration_min := payload.sleep_duration_min
           resting_hr := payload.resting_hr
           hrv_ms := payload.hrv_ms
           recharge_status := payload.recharge_status
           sleep_score := payload.sleep_score
           notes := payload.notes }]
      next_sleep_id := db.next_sleep_id + 1 }

/-- POST /ans (main.log_ans): plain insert. -/
def log_ans (db : DB) (payload : ANSLogCreate) : DB :=
  { db with
      ans_logs := db.ans_logs ++
        [{ id := db.next_ans_id
           user_id := payload.user_id
           date := payload.date
           ans_change := payload.ans_change
           sleep_charge_score := payload.sleep_charge_score
           source := payload.source }]
      next_ans_id := db.next_ans_id + 1 }

/-- POST /daily-feel (main.log_daily_feel): plain insert. -/
def log_daily_feel (db : DB) (payload : DailyFeelCreate) : DB :=
  { db with
      daily_feel := db.daily_feel ++
        [{ id := db.next_feel_id
           user_id := payload.user_id
           date := payload.date
           energy_1_10 := payload.energy_1_10
           fatigue_1_10 := payload.fatigue_1_10
           soreness_1_10 := payload.soreness_1_10
           mood_1_10 := payload.mood_1_10
           performance_feeling_1_10 := payload.performance_feeling_1_10
           stress_1_10 := payload.stress_1_10
           notes := payload.notes }]
      next_feel_id := db.next_feel_id + 1 }

/-- Row predicate for the daily_targets (user_id, date) key. -/
def targetsKey (user_id d : Nat) (t : DailyTargets) : Bool :=
  t.user_id == user_id && t.date == d

/-- Overwrite every payload field of a daily_targets row, as the
`for k, v in payload.dict().items(): setattr(dt, k, v)` loop does; the
primary key `id` is not a payload field and is kept. -/
def applyTargets (payload : DailyTargetsCreate) (t : DailyTargets) : DailyTargets :=
  { t with
      user_id := payload.user_id
      date := payload.date
      readiness_state := payload.readiness_state
      target_protein_min_g := payload.target_protein_min_g
      target_protein_max_g := payload.target_protein_max_g
      target_carbs_g := payload.target_carbs_g
      target_fat_g := payload.target_fat_g
      target_calories_kcal := payload.target_calories_kcal
      training_recommendation := payload.training_recommendation
      recovery_recommendation := payload.recovery_recommendation }

/-- POST /daily-targets (main.set_daily_targets): upsert by (user_id, date);
an existing row is overwritten field by field, otherwise a new row is
inserted from the payload. -/
def set_daily_targets (db : DB) (payload : DailyTargetsCreate) : DB :=
  match db.daily_targets.find? (targetsKey payload.user_id payload.date) with
  | some _ =>
    { db with
        daily_targets :=
          updateFirst (targetsKey payload.user_id payload.date)
            (applyTargets payload) db.daily_targets }
  | none =>
    { db with
        daily_targets := db.daily_targets ++
          [{ id := db.next_targets_id
             user_id := payload.user_id
             date := payload.date
             readiness_state := payload.readiness_state
             target_protein_min_g := payload.target_protein_min_g
             target_protein_max_g := payload.target_protein_max_g
             target_carbs_g := payload.target_carbs_g
             target_fat_g := payload.target_fat_g
             target_calories_kcal := payload.target_calories_kcal
             training_recommendation := payload.training_recommendation
             recovery_recommendation := payload.recovery_recommendation }]
        next_targets_id := db.next_targets_id + 1 }

/-- The Meal ⋈ MealItem ⋈ FoodItem inner join of main.daily_summary,
restricted to the given user and date. -/
def joinedRows (db : DB) (user_id d : Nat) : List (MealItem × FoodItem) :=
  (db.meals.filter (fun m => m.user_id == user_id && m.date == d)).flatMap
    (fun m =>
      (db.meal_items.filter (fun mi => mi.meal_id == m.id)).flatMap
        (fun mi =>
          (db.food_items.filter (fun f => f.id == mi.food_id)).map
            (fun f => (mi, f))))

/-- One of the four `coalesce(sum(food.X * item.quantity_g / 100), 0)`
aggregates over the joined rows: the empty sum is 0. -/
def nutrientSum (rows : List (MealItem × FoodItem)) (nutr : FoodItem → ℚ) : ℚ :=
  (rows.map (fun r => nutr r.2 * r.1.quantity_g / 100)).sum

/-- GET /summary/daily/\x7buser_id\x7d/\x7bd\x7d (main.daily_summary). -/
def daily_summary (db : DB) (user_id : Nat) (d : Nat) : DailySummary :=
  let rows := joinedRows db user_id d
  let daily := findDaily db user_id d
  let kcal_in := nutrientSum rows FoodItem.kcal
  let kcal_out := (daily.bind DailyLog.calories_out_training_kcal).getD 0
  { date := d
    protein_g := nutrientSum rows FoodItem.protein_g
    carbs_g := nutrientSum rows FoodItem.carbs_g
    fat_g := nutrientSum rows FoodItem.fat_g
    calories_in_kcal := kcal_in
    training_calories_kcal := kcal_out
    deficit_kcal := (daily.bind DailyLog.calculated_deficit_kcal).getD (kcal_in - kcal_out)
    readiness_state := daily.bind DailyLog.readiness_state }

/-- The daily_log rows stored for a given (user_id, date). -/
def dayRows (db : DB) (user_id d : Nat) : List DailyLog :=
  db.daily_log.filter (dailyKey user_id d)

/-- The daily_targets rows stored for a given (user_id, date). -/
def targetRows (db : DB) (user_id d : Nat) : List DailyTargets :=
  db.daily_targets.filter (targetsKey user_id d)

/-- A state-mutating request, one constructor per POST handler. -/
inductive Request where
  | user (p : UserCreate)
  | weight (today : Nat) (p : WeightLogCreate)
  | meal (p : MealCreate)
  | training (p : TrainingSessionCreate)
  | sleep (p : SleepLogCreate)
  | ansReading (p : ANSLogCreate)
  | feel (p : DailyFeelCreate)
  | targets (p : DailyTargetsCreate)

/-- Dispatch one request to its handler, keeping only the database state. -/
def applyRequest (db : DB) : Request → DB
  | .user p => (create_user db p).1
  | .weight today p => log_weight today db p
  | .meal p => (log_meal db p).1
  | .training p => log_training db p
  | .sleep p => log_sleep db p
  | .ansReading p => log_ans db p
  | .feel p => log_daily_feel db p
  | .targets p => set_daily_targets db p

/-- The database produced by a sequence of requests against a fresh
database: every reachable state of the service. -/
def runRequests (rs : List Request) : DB :=
  rs.foldl applyRequest emptyDB

/-- One meal item's contribution to a macro total: the per-100g value of
the food the item references, scaled by quantity_g / 100; an item whose
food_id resolves to no row contributes nothing. -/
def itemNutrient (db : DB) (nutr : FoodItem → ℚ) (mi : MealItem) : ℚ :=
  match db.food_items.find? (fun f => f.id == mi.food_id) with
  | none => 0
  | some f => nutr f * mi.quantity_g / 100

/-- The total the spec claims for one macro of the daily summary: over ALL
meal items whose meal belongs to user u on date d, add the food's per-100g
value times quantity_g / 100 (an item whose meal or food id resolves to no
row contributes nothing, matching the inner join).  Stated by a scan of the
meal_items table, independent of the join order the code uses. -/
def claimedNutrientTotal (db : DB) (user_id d : Nat) (nutr : FoodItem → ℚ) : ℚ :=
  (db.meal_items.map (fun mi =>
    match db.meals.find? (fun m => m.user_id == user_id && m.date == d && mi.meal_id == m.id) with
    | none => 0
    | some _ => itemNutrient db nutr mi)).sum

/-! Concrete sample data used to exercise the theorems below. -/

/-- Two reference foods (macros per 100 g). -/
def sampleFoods : List FoodItem :=
  [{ id := 1, name := "rice", protein_g := 3, carbs_g := 28, fat_g := 1, kcal := 130 },
   { id := 2, name := "chicken", protein_g := 25, carbs_g := 0, fat_g := 4, kcal := 165 }]

/-- A database holding only the two reference foods. -/
def dbFoods : DB := { emptyDB with food_items := sampleFoods }

/-- A two-item meal for user 1 on day 10. -/
def mealReq : MealCreate :=
  { user_id := 1, date := 10, meal_type := "lunch",
    items := [{ food_id := 1, quantity_g := 200 }, { food_id := 2, quantity_g := 150 }] }

/-- The state after logging `mealReq` against `dbFoods`. -/
def dbMeals : DB := (log_meal dbFoods mealReq).1

/-- A meal request whose only item references food id 1, which does not
exist in `emptyDB`. -/
def badMealReq : MealCreate :=
  { user_id := 1, date := 10, meal_type := "lunch",
    items := [{ food_id := 1, quantity_g := 50 }] }

/-- A daily_log row carrying an explicit deficit override. -/
def overrideRow : DailyLog :=
  { id := 1, user_id := 1, date := 10, calculated_deficit_kcal := some 250 }

/-- A database whose only daily_log row is `overrideRow`. -/
def dbOverride : DB := { emptyDB with daily_log := [overrideRow] }

/-- A daily_log row with training calories and a readiness state. -/
def trainedRow : DailyLog :=
  { id := 1, user_id := 1, date := 10,
    calories_out_training_kcal := some 600, readiness_state := some .HIGH }

/-- A database whose only daily_log row is `trainedRow`. -/
def dbTrained : DB := { emptyDB with daily_log := [trainedRow] }

/-- Weight postings for user 1 on day 10. -/
def wReq : WeightLogCreate := { user_id := 1, weight_kg := 80, date_time := some 10 }

/-- A second weight posting for the same user and day. -/
def wReq2 : WeightLogCreate := { user_id := 1, weight_kg := 81, date_time := some 10 }

/-- A 300 kcal training session for user 1 on day 10. -/
def tReq : TrainingSessionCreate :=
  { user_id := 1, date := 10, type := "run", calories_kcal := some 300 }

/-- A first daily-targets payload for user 1 on day 10. -/
def tgReq1 : DailyTargetsCreate :=
  { user_id := 1, date := 10, readiness_state := some .HIGH,
    target_protein_min_g := some 150, target_calories_kcal := some 2500 }

/-- A second daily-targets payload for the same user and day. -/
def tgReq2 : DailyTargetsCreate :=
  { user_id := 1, date := 10, readiness_state := some .LOW,
    target_protein_min_g := some 170, target_fat_g := some 60 }

/-- A database where day 10 holds only another user's meal (user 2),
with one item, so user 1 has nothing logged that day. -/
def dbOtherUser : DB :=
  { emptyDB with
      food_items := sampleFoods
      meals := [{ id := 1, user_id := 2, date := 10, meal_type := "lunch" }]
      meal_items := [{ id := 1, meal_id := 1, food_id := 1, quantity_g := 100 }] }

/-! Helper lemmas about `find?`, `filter`, `updateFirst` and rational sums. -/

theorem find?_eq_filter_head? {α : Type _} (p : α → Bool) (l : List α) :
    l.find? p = (l.filter p).head? := by
  induction l with
  | nil => rfl
  | cons x xs ih =>
    by_cases h : p x
    · rw [List.find?_cons_of_pos _ h, List.filter_cons_of_pos h]; rfl
    · rw [List.find?_cons_of_neg _ h, List.filter_cons_of_neg h, ih]

theorem find?_of_filter_singleton {α : Type _} {p : α → Bool} {l : List α} {a : α}
    (h : l.filter p = [a]) : l.find? p = some a := by
  rw [find?_eq_filter_head?, h]; rfl

theorem find?_none_of_filter_nil {α : Type _} {p : α → Bool} {l : List α}
    (h : l.filter p = []) : l.find? p = none := by
  rw [find?_eq_filter_head?, h]; rfl

theorem updateFirst_filter_singleton {α : Type _} {p : α → Bool} {f : α → α}
    {l : List α} {a : α} (h : l.filter p = [a]) (hfa : p (f a) = true) :
    (updateFirst p f l).filter p = [f a] := by
  induction l with
  | nil => simp at h
  | cons x xs ih =>
    by_cases hx : p x
    · rw [List.filter_cons_of_pos hx] at h
      obtain ⟨rfl, hrest⟩ : x = a ∧ xs.filter p = [] := by
        constructor <;> [exact (List.cons_eq_cons.mp h).1; exact (List.cons_eq_cons.mp h).2]
      simp [updateFirst, hx, List.filter_cons_of_pos hfa, hrest]
    · rw [List.filter_cons_of_neg hx] at h
      simp [updateFirst, hx, List.filter_cons_of_neg hx, ih h]

theorem countP_updateFirst {α : Type _} (q p : α → Bool) (f : α → α)
    (hpres : ∀ x, q x = true → p (f x) = p x) (l : List α) :
    (updateFirst q f l).countP p = l.countP p := by
  induction l with
  | nil => rfl
  | cons x xs ih =>
    by_cases hx : q x
    · simp only [updateFirst, hx, if_pos]
      rw [List.countP_cons, List.countP_cons, hpres x hx]
    · simp only [updateFirst, hx, if_neg, Bool.false_eq_true, not_false_eq_true]
      rw [List.countP_cons, List.countP_cons, ih]

theorem mem_updateFirst {α : Type _} {p : α → Bool} {f : α → α} {l : List α} {x : α}
    (h : x ∈ updateFirst p f l) : x ∈ l ∨ ∃ y, y ∈ l ∧ x = f y := by
  induction l with
  | nil => simp [updateFirst] at h
  | cons z zs ih =>
    by_cases hz : p z
    · simp only [updateFirst, hz, if_pos] at h
      rcases List.mem_cons.mp h with h1 | h2
      · exact Or.inr ⟨z, List.mem_cons_self .., h1⟩
      · exact Or.inl (List.mem_cons_of_mem _ h2)
    · simp only [updateFirst, hz, Bool.false_eq_true, not_false_eq_true, if_neg] at h
      rcases List.mem_cons.mp h with h1 | h2
      · exact Or.inl (h1 ▸ List.mem_cons_self ..)
      · rcases ih h2 with h3 | ⟨y, hy, hxy⟩
        · exact Or.inl (List.mem_cons_of_mem _ h3)
        · exact Or.inr ⟨y, List.mem_cons_of_mem _ hy, hxy⟩

theorem sum_map_filter_eq_ite {α : Type _} (p : α → Bool) (g : α → ℚ) (l : List α) :
    ((l.filter p).map g).sum = (l.map (fun x => if p x then g x else 0)).sum := by
  induction l with
  | nil => rfl
  | cons x xs ih =>
    by_cases h : p x <;> simp [List.filter_cons, h, ih]

theorem sum_map_add {α : Type _} (f g : α → ℚ) (l : List α) :
    (l.map (fun x => f x + g x)).sum = (l.map f).sum + (l.map g).sum := by
  induction l with
  | nil => simp
  | cons x xs ih => simp [ih]; ring

theorem sum_map_zero {α : Type _} (l : List α) :
    (l.map (fun _ => (0 : ℚ))).sum = 0 := by
  simp

theorem sum_map_swap {α β : Type _} (M : List α) (I : List β) (g : α → β → ℚ) :
    (M.map (fun m => (I.map (g m)).sum)).sum
      = (I.map (fun i => (M.map (fun m => g m i)).sum)).sum := by
  induction M with
  | nil => simp
  | cons m M ih =>
    simp only [List.map_cons, List.sum_cons, ih, ← sum_map_add]

theorem sum_map_flatMap {α β : Type _} (l : List α) (f : α → List β) (g : β → ℚ) :
    ((l.flatMap f).map g).sum = (l.map (fun a => ((f a).map g).sum)).sum := by
  induction l with
  | nil => rfl
  | cons x xs ih =>
    simp only [List.flatMap_cons, List.map_append, List.sum_append, ih,
      List.map_cons, List.sum_cons]

theorem filter_eq_find?_toList_of_key {α : Type _} (key : α → Nat) (p : α → Bool)
    (k : Nat) (hp : ∀ x, p x = true → key x = k) :
    ∀ (l : List α), (l.map key).Nodup → l.filter p = (l.find? p).toList := by
  intro l
  induction l with
  | nil => intro _; rfl
  | cons x xs ih =>
    intro hnd
    rw [List.map_cons, List.nodup_cons] at hnd
    by_cases hx : p x
    · rw [List.filter_cons_of_pos hx, List.find?_cons_of_pos _ hx]
      have hxs : xs.filter p = [] := by
        rw [List.filter_eq_nil_iff]
        intro y hy hpy
        have hmem : key y ∈ xs.map key := List.mem_map.mpr ⟨y, hy, rfl⟩
        rw [hp y hpy, ← hp x hx] at hmem
        exact hnd.1 hmem
      rw [hxs]; rfl
    · rw [List.filter_cons_of_neg hx, List.find?_cons_of_neg _ hx]
      exact ih hnd.2

theorem sum_map_toList {α : Type _} (o : Option α) (g : α → ℚ) :
    ((o.toList).map g).sum = match o with | none => 0 | some a => g a := by
  cases o <;> simp

theorem find?_congr_pred {α : Type _} {p q : α → Bool} (l : List α)
    (h : ∀ a, p a = q a) : l.find? p = l.find? q := by
  have : p = q := funext h
  rw [this]

theorem filter_nil_of_find?_none {α : Type _} {p : α → Bool} {l : List α}
    (h : l.find? p = none) : l.filter p = [] := by
  rw [List.find?_eq_none] at h
  rw [List.filter_eq_nil_iff]
  exact h

theorem upsert_countP_le {α : Type _} (p : α → Bool) (l : List α) (x : α)
    (hinv : l.countP p ≤ 1) (hx : p x = true → l.countP p = 0) :
    (l ++ [x]).countP p ≤ 1 := by
  rw [List.countP_append]
  by_cases h : p x
  · rw [hx h]
    simp [List.countP_cons, h]
  · simp [List.countP_cons, h]
    exact hinv

/-- The daily_log row created by POST /weight when the day has no header. -/
theorem dayRows_log_weight_create (today : Nat) (db : DB) (w : WeightLogCreate)
    (h : dayRows db w.user_id (w.date_time.getD today) = []) :
    dayRows (log_weight today db w) w.user_id (w.date_time.getD today) =
      [{ id := db.next_daily_log_id, user_id := w.user_id,
         date := w.date_time.getD today, body_weight_kg := some w.weight_kg }] := by
  have hf : findDaily db w.user_id (w.date_time.getD today) = none :=
    find?_none_of_filter_nil h
  rw [dayRows] at h ⊢
  simp only [log_weight, hf]
  rw [List.filter_append, h]
  simp [dailyKey]

/-- POST /weight on a day that already has a header updates that row's
body_weight_kg in place. -/
theorem dayRows_log_weight_update (today : Nat) (db : DB) (w : WeightLogCreate)
    (r : DailyLog) (h : dayRows db w.user_id (w.date_time.getD today) = [r]) :
    dayRows (log_weight today db w) w.user_id (w.date_time.getD today) =
      [{ r with body_weight_kg := some w.weight_kg }] := by
  have hf : findDaily db w.user_id (w.date_time.getD today) = some r :=
    find?_of_filter_singleton h
  have hr : dailyKey w.user_id (w.date_time.getD today) r = true := by
    have : r ∈ db.daily_log.filter (dailyKey w.user_id (w.date_time.getD today)) := by
      rw [← dayRows, h]; exact List.mem_cons_self ..
    exact (List.mem_filter.mp this).2
  rw [dayRows] at h ⊢
  simp only [log_weight, hf]
  exact updateFirst_filter_singleton h (by simpa [dailyKey] using hr)

/-- POST /weight preserves the at-most-one-daily_log-row-per-(user, date)
invariant at every key. -/
theorem dayRows_length_log_weight (today : Nat) (db : DB) (w : WeightLogCreate)
    (u d : Nat) (hinv : (dayRows db u d).length ≤ 1) :
    (dayRows (log_weight today db w) u d).length ≤ 1 := by
  rw [dayRows, ← List.countP_eq_length_filter] at hinv ⊢
  cases hcase : findDaily db w.user_id (w.date_time.getD today) with
  | none =>
    have hfil : db.daily_log.filter (dailyKey w.user_id (w.date_time.getD today)) = [] :=
      filter_nil_of_find?_none hcase
    simp only [log_weight, hcase]
    refine upsert_countP_le _ _ _ hinv ?_
    intro hp
    rw [dailyKey] at hp
    simp only [Bool.and_eq_true, beq_iff_eq] at hp
    rw [List.countP_eq_length_filter]
    obtain ⟨hu, hd⟩ := hp
    rw [← hu, ← hd, hfil]
    rfl
  | some r =>
    simp only [log_weight, hcase]
    rw [countP_updateFirst]
    · exact hinv
    · intro x _
      rfl

/-- The daily_log row created by POST /training when the day has no header. -/
theorem dayRows_log_training_create (db : DB) (t : TrainingSessionCreate)
    (h : dayRows db t.user_id t.date = []) :
    dayRows (log_training db t) t.user_id t.date =
      [{ id := db.next_daily_log_id, user_id := t.user_id, date := t.date,
         calories_out_training_kcal := some (t.calories_kcal.getD 0) }] := by
  have hf : findDaily db t.user_id t.date = none := find?_none_of_filter_nil h
  rw [dayRows] at h ⊢
  simp only [log_training, hf]
  rw [List.filter_append, h]
  simp [dailyKey]

/-- POST /training on a day that already has a header adds the session's
calories to the existing counter in place. -/
theorem dayRows_log_training_update (db : DB) (t : TrainingSessionCreate)
    (r : DailyLog) (h : dayRows db t.user_id t.date = [r]) :
    dayRows (log_training db t) t.user_id t.date =
      [{ r with calories_out_training_kcal :=
            some (r.calories_out_training_kcal.getD 0 + t.calories_kcal.getD 0) }] := by
  have hf : findDaily db t.user_id t.date = some r := find?_of_filter_singleton h
  have hr : dailyKey t.user_id t.date r = true := by
    have : r ∈ db.daily_log.filter (dailyKey t.user_id t.date) := by
      rw [← dayRows, h]; exact List.mem_cons_self ..
    exact (List.mem_filter.mp this).2
  rw [dayRows] at h ⊢
  simp only [log_training, hf]
  exact updateFirst_filter_singleton h (by simpa [dailyKey] using hr)

/-- POST /training preserves the at-most-one-daily_log-row invariant. -/
theorem dayRows_length_log_training (db : DB) (t : TrainingSessionCreate)
    (u d : Nat) (hinv : (dayRows db u d).length ≤ 1) :
    (dayRows (log_training db t) u d).length ≤ 1 := by
  rw [dayRows, ← List.countP_eq_length_filter] at hinv ⊢
  cases hcase : findDaily db t.user_id t.date with
  | none =>
    have hfil : db.daily_log.filter (dailyKey t.user_id t.date) = [] :=
      filter_nil_of_find?_none hcase
    simp only [log_training, hcase]
    refine upsert_countP_le _ _ _ hinv ?_
    intro hp
    rw [dailyKey] at hp
    simp only [Bool.and_eq_true, beq_iff_eq] at hp
    rw [List.countP_eq_length_filter]
    obtain ⟨hu, hd⟩ := hp
    rw [← hu, ← hd, hfil]
    rfl
  | some r =>
    simp only [log_training, hcase]
    rw [countP_updateFirst]
    · exact hinv
    · intro x _
      rfl

/-- POST /daily-targets never touches the daily_log table. -/
theorem set_daily_targets_daily_log_unchanged (db : DB) (p : DailyTargetsCreate) :
    (set_daily_targets db p).daily_log = db.daily_log := by
  rw [set_daily_targets]
  cases db.daily_targets.find? (targetsKey p.user_id p.date) <;> rfl

/-- POST /meals never touches the daily_log table. -/
theorem log_meal_daily_log_unchanged (db : DB) (m : MealCreate) :
    ((log_meal db m).1).daily_log = db.daily_log := by
  rw [log_meal]
  generalize buildMealItems _ _ _ _ = res
  cases res <;> rfl

/-- Every request preserves the at-most-one-daily_log-row invariant. -/
theorem dayRows_length_applyRequest (db : DB) (r : Request) (u d : Nat)
    (hinv : (dayRows db u d).length ≤ 1) :
    (dayRows (applyRequest db r) u d).length ≤ 1 := by
  cases r with
  | user p => exact hinv
  | weight today p => exact dayRows_length_log_weight today db p u d hinv
  | meal p =>
    rw [applyRequest, dayRows, log_meal_daily_log_unchanged]
    exact hinv
  | training p => exact dayRows_length_log_training db p u d hinv
  | sleep p => exact hinv
  | ansReading p => exact hinv
  | feel p => exact hinv
  | targets p =>
    rw [applyRequest, dayRows, set_daily_targets_daily_log_unchanged]
    exact hinv

/-- Every reachable database state has at most one daily_log row per
(user_id, date). -/
theorem dayRows_length_runRequests (rs : List Request) (u d : Nat) :
    (dayRows (runRequests rs) u d).length ≤ 1 := by
  rw [runRequests]
  have main : ∀ (l : List Request) (db : DB), (dayRows db u d).length ≤ 1 →
      (dayRows (l.foldl applyRequest db) u d).length ≤ 1 := by
    intro l
    induction l with
    | nil => intro db h; exact h
    | cons r l ih =>
      intro db h
      exact ih (applyRequest db r) (dayRows_length_applyRequest db r u d h)
  exact main rs emptyDB (by rw [dayRows]; exact Nat.le_succ 0)

/-- C5: posting weight with no prior (u, d) daily_log row creates exactly
one such row carrying the posted weight; posting weight again for the same
(u, d) updates that same row's body_weight_kg with the count staying 1; and
the at-most-one-daily_log-row-per-(user_id, date) invariant is preserved by
every handler, hence holds in every reachable state. -/
theorem log_weight_upsert_invariant (today : Nat) (db : DB)
    (w w2 : WeightLogCreate) (u d : Nat)
    (hinv : (dayRows db u d).length ≤ 1) :
    (dayRows db w.user_id (w.date_time.getD today) = [] →
      dayRows (log_weight today db w) w.user_id (w.date_time.getD today) =
        [{ id := db.next_daily_log_id, user_id := w.user_id,
           date := w.date_time.getD today, body_weight_kg := some w.weight_kg }]) ∧
    (∀ r, dayRows db w.user_id (w.date_time.getD today) = [r] →
      dayRows (log_weight today db w) w.user_id (w.date_time.getD today) =
        [{ r with body_weight_kg := some w.weight_kg }]) ∧
    (dayRows db w.user_id (w.date_time.getD today) = [] →
      w2.user_id = w.user_id → w2.date_time.getD today = w.date_time.getD today →
      dayRows (log_weight today (log_weight today db w) w2)
          w.user_id (w.date_time.getD today) =
        [{ id := db.next_daily_log_id, user_id := w.user_id,
           date := w.date_time.getD today, body_weight_kg := some w2.weight_kg }]) ∧
    (dayRows (log_weight today db w) u d).length ≤ 1 ∧
    (∀ req : Request, (dayRows (applyRequest db req) u d).length ≤ 1) ∧
    (∀ rs : List Request, (dayRows (runRequests rs) u d).length ≤ 1) := by
  refine ⟨dayRows_log_weight_create today db w,
    fun r h => dayRows_log_weight_update today db w r h,
    ?_,
    dayRows_length_log_weight today db w u d hinv,
    fun req => dayRows_length_applyRequest db req u d hinv,
    fun rs => dayRows_length_runRequests rs u d⟩
  intro h0 hu2 hd2
  have h1 := dayRows_log_weight_create today db w h0
  have h2 := dayRows_log_weight_update today (log_weight today db w) w2 _
    (by rw [hu2, hd2]; exact h1)
  rw [hu2, hd2] at h2
  exact h2

/-- Witness for C5: two weight posts for user 1 on day 10 from the empty
database leave exactly the one updated header row. -/
theorem log_weight_upsert_invariant_witness :
    (dayRows emptyDB 1 10).length ≤ 1 ∧
    dayRows emptyDB wReq.user_id (wReq.date_time.getD 0) = [] ∧
    wReq2.user_id = wReq.user_id ∧
    dayRows (log_weight 0 (log_weight 0 emptyDB wReq) wReq2)
        wReq.user_id (wReq.date_time.getD 0) =
      [{ id := emptyDB.next_daily_log_id, user_id := wReq.user_id,
         date := wReq.date_time.getD 0, body_weight_kg := some wReq2.weight_kg }] :=
  ⟨by decide, rfl, rfl,
   (log_weight_upsert_invariant 0 emptyDB wReq wReq2 1 10 (by decide)).2.2.1 rfl rfl rfl⟩

/-- POST /weight never touches the daily_targets table. -/
theorem log_weight_daily_targets_unchanged (today : Nat) (db : DB)
    (w : WeightLogCreate) :
    (log_weight today db w).daily_targets = db.daily_targets := by
  rw [log_weight]
  cases findDaily db w.user_id (w.date_time.getD today) <;> rfl

/-- POST /training never touches the daily_targets table. -/
theorem log_training_daily_targets_unchanged (db : DB)
    (t : TrainingSessionCreate) :
    (log_training db t).daily_targets = db.daily_targets := by
  rw [log_training]
  cases findDaily db t.user_id t.date <;> rfl

/-- POST /meals never touches the daily_targets table. -/
theorem log_meal_daily_targets_unchanged (db : DB) (m : MealCreate) :
    ((log_meal db m).1).daily_targets = db.daily_targets := by
  rw [log_meal]
  generalize buildMealItems _ _ _ _ = res
  cases res <;> rfl

/-- The daily_targets row created by POST /daily-targets when none exists. -/
theorem targetRows_create (db : DB) (p : DailyTargetsCreate)
    (h : targetRows db p.user_id p.date = []) :
    targetRows (set_daily_targets db p) p.user_id p.date =
      [{ id := db.next_targets_id, user_id := p.user_id, date := p.date,
         readiness_state := p.readiness_state,
         target_protein_min_g := p.target_protein_min_g,
         target_protein_max_g := p.target_protein_max_g,
         target_carbs_g := p.target_carbs_g,
         target_fat_g := p.target_fat_g,
         target_calories_kcal := p.target_calories_kcal,
         training_recommendation := p.training_recommendation,
         recovery_recommendation := p.recovery_recommendation }] := by
  have hf : db.daily_targets.find? (targetsKey p.user_id p.date) = none :=
    find?_none_of_filter_nil h
  rw [targetRows] at h ⊢
  simp only [set_daily_targets, hf]
  rw [List.filter_append, h]
  simp [targetsKey]

/-- POST /daily-targets with an existing (u, d) row overwrites it in place. -/
theorem targetRows_update (db : DB) (p : DailyTargetsCreate) (r : DailyTargets)
    (h : targetRows db p.user_id p.date = [r]) :
    targetRows (set_daily_targets db p) p.user_id p.date = [applyTargets p r] := by
  have hf : db.daily_targets.find? (targetsKey p.user_id p.date) = some r :=
    find?_of_filter_singleton h
  rw [targetRows] at h ⊢
  simp only [set_daily_targets, hf]
  exact updateFirst_filter_singleton h (by simp [targetsKey, applyTargets])

/-- POST /daily-targets preserves the at-most-one-targets-row invariant. -/
theorem targetRows_length_set (db : DB) (p : DailyTargetsCreate) (u d : Nat)
    (hinv : (targetRows db u d).length ≤ 1) :
    (targetRows (set_daily_targets db p) u d).length ≤ 1 := by
  rw [targetRows, ← List.countP_eq_length_filter] at hinv ⊢
  cases hcase : db.daily_targets.find? (targetsKey p.user_id p.date) with
  | none =>
    have hfil : db.daily_targets.filter (targetsKey p.user_id p.date) = [] :=
      filter_nil_of_find?_none hcase
    simp only [set_daily_targets, hcase]
    refine upsert_countP_le _ _ _ hinv ?_
    intro hp
    rw [targetsKey] at hp
    simp only [Bool.and_eq_true, beq_iff_eq] at hp
    rw [List.countP_eq_length_filter]
    obtain ⟨hu, hd⟩ := hp
    rw [← hu, ← hd, hfil]
    rfl
  | some r =>
    simp only [set_daily_targets, hcase]
    rw [countP_updateFirst]
    · exact hinv
    · intro x hx
      rw [targetsKey] at hx
      simp only [Bool.and_eq_true, beq_iff_eq] at hx
      simp [targetsKey, applyTargets, hx.1, hx.2]

/-- Every request preserves the at-most-one-daily_targets-row invariant. -/
theorem targetRows_length_applyRequest (db : DB) (r : Request) (u d : Nat)
    (hinv : (targetRows db u d).length ≤ 1) :
    (targetRows (applyRequest db r) u d).length ≤ 1 := by
  cases r with
  | user p => exact hinv
  | weight today p =>
    rw [applyRequest, targetRows, log_weight_daily_targets_unchanged]
    exact hinv
  | meal p =>
    rw [applyRequest, targetRows, log_meal_daily_targets_unchanged]
    exact hinv
  | training p =>
    rw [applyRequest, targetRows, log_training_daily_targets_unchanged]
    exact hinv
  | sleep p => exact hinv
  | ansReading p => exact hinv
  | feel p => exact hinv
  | targets p => exact targetRows_length_set db p u d hinv

/-- Every reachable database state has at most one daily_targets row per
(user_id, date). -/
theorem targetRows_length_runRequests (rs : List Request) (u d : Nat) :
    (targetRows (runRequests rs) u d).length ≤ 1 := by
  rw [runRequests]
  have main : ∀ (l : List Request) (db : DB), (targetRows db u d).length ≤ 1 →
      (targetRows (l.foldl applyRequest db) u d).length ≤ 1 := by
    intro l
    induction l with
    | nil => intro db h; exact h
    | cons r l ih =>
      intro db h
      exact ih (applyRequest db r) (targetRows_length_applyRequest db r u d h)
  exact main rs emptyDB (by rw [targetRows]; exact Nat.le_succ 0)

/-- C7: POST /daily-targets upserts by (user_id, date): a missing row is
created from the payload, an existing one is overwritten field by field, at
most one row per (u, d) ever exists, and after a second POST for the same
(u, d) the later payload's values are the ones stored. -/
theorem set_daily_targets_upsert (db : DB) (p q : DailyTargetsCreate)
    (u d : Nat) (hinv : (targetRows db u d).length ≤ 1) :
    (targetRows db p.user_id p.date = [] →
      targetRows (set_daily_targets db p) p.user_id p.date =
        [{ id := db.next_targets_id, user_id := p.user_id, date := p.date,
           readiness_state := p.readiness_state,
           target_protein_min_g := p.target_protein_min_g,
           target_protein_max_g := p.target_protein_max_g,
           target_carbs_g := p.target_carbs_g,
           target_fat_g := p.target_fat_g,
           target_calories_kcal := p.target_calories_kcal,
           training_recommendation := p.training_recommendation,
           recovery_recommendation := p.recovery_recommendation }]) ∧
    (∀ r, targetRows db p.user_id p.date = [r] →
      targetRows (set_daily_targets db p) p.user_id p.date = [applyTargets p r]) ∧
    (targetRows db p.user_id p.date = [] →
      q.user_id = p.user_id → q.date = p.date →
      ∃ r, targetRows (set_daily_targets (set_daily_targets db p) q)
          p.user_id p.date = [r] ∧
        r.readiness_state = q.readiness_state ∧
        r.target_protein_min_g = q.target_protein_min_g ∧
        r.target_protein_max_g = q.target_protein_max_g ∧
        r.target_carbs_g = q.target_carbs_g ∧
        r.target_fat_g = q.target_fat_g ∧
        r.target_calories_kcal = q.target_calories_kcal ∧
        r.training_recommendation = q.training_recommendation ∧
        r.recovery_recommendation = q.recovery_recommendation) ∧
    (targetRows (set_daily_targets db p) u d).length ≤ 1 ∧
    (∀ rs : List Request, (targetRows (runRequests rs) u d).length ≤ 1) := by
  refine ⟨targetRows_create db p, fun r h => targetRows_update db p r h, ?_,
    targetRows_length_set db p u d hinv,
    fun rs => targetRows_length_runRequests rs u d⟩
  intro h0 hqu hqd
  have h1 := targetRows_create db p h0
  have h2 := targetRows_update (set_daily_targets db p) q _
    (by rw [hqu, hqd]; exact h1)
  rw [hqu, hqd] at h2
  exact ⟨_, h2, rfl, rfl, rfl, rfl, rfl, rfl, rfl, rfl⟩

/-- Witness for C7: posting `tgReq1` then `tgReq2` for user 1, day 10 leaves
one row holding the second payload's values. -/
theorem set_daily_targets_upsert_witness :
    (targetRows emptyDB 1 10).length ≤ 1 ∧
    targetRows emptyDB tgReq1.user_id tgReq1.date = [] ∧
    (∃ r, targetRows (set_daily_targets (set_daily_targets emptyDB tgReq1) tgReq2)
        tgReq1.user_id tgReq1.date = [r] ∧
      r.readiness_state = tgReq2.readiness_state ∧
      r.target_protein_min_g = tgReq2.target_protein_min_g ∧
      r.target_protein_max_g = tgReq2.target_protein_max_g ∧
      r.target_carbs_g = tgReq2.target_carbs_g ∧
      r.target_fat_g = tgReq2.target_fat_g ∧
      r.target_calories_kcal = tgReq2.target_calories_kcal ∧
      r.training_recommendation = tgReq2.training_recommendation ∧
      r.recovery_recommendation = tgReq2.recovery_recommendation) :=
  ⟨by decide, rfl,
   (set_daily_targets_upsert emptyDB tgReq1 tgReq2 1 10 (by decide)).2.2.1 rfl rfl rfl⟩

/-- The meal-item loop fails with a 400 as soon as any requested item's
food id resolves to no FoodItem row. -/
theorem buildMealItems_error_of_missing (foods : List FoodItem) (mid : Nat)
    (items : List MealItemCreate)
    (h : ∃ i ∈ items, foods.find? (fun f => f.id == i.food_id) = none) :
    ∀ nid : Nat, ∃ e, buildMealItems foods mid nid items = .error e ∧ e.status = 400 := by
  induction items with
  | nil => simp at h
  | cons i rest ih =>
    intro nid
    rcases h with ⟨j, hj, hjn⟩
    rcases List.mem_cons.mp hj with rfl | hjr
    · rw [buildMealItems, hjn]
      exact ⟨_, rfl, rfl⟩
    · cases hhead : foods.find? (fun f => f.id == i.food_id) with
      | none =>
        rw [buildMealItems, hhead]
        exact ⟨_, rfl, rfl⟩
      | some f =>
        rcases ih ⟨j, hjr, hjn⟩ (nid + 1) with ⟨e, he, hs⟩
        rw [buildMealItems, hhead, he]
        exact ⟨e, rfl, hs⟩

/-- C3 counterexample: posting `badMealReq` against the empty database (no
foods) fails with 400, yet the database is NOT left unchanged — the Meal
row, committed before item validation, is persisted. -/
theorem log_meal_counterexample_meal_persisted :
    (log_meal emptyDB badMealReq).2 =
      Except.error { status := 400, detail := "Food item 1 not found" } ∧
    emptyDB.meals = [] ∧
    (log_meal emptyDB badMealReq).1.meals =
      [{ id := 1, user_id := 1, date := 10, meal_type := "lunch" }] :=
  ⟨rfl, rfl, rfl⟩

/-- C3 amended: POST /meals with an item whose food_id matches no FoodItem
fails with a 400 client error and persists none of the requested meal items;
the meal header row itself, however, is committed before validation and
remains in the meals table. -/
theorem log_meal_missing_food_400 (db : DB) (p : MealCreate)
    (h : ∃ i ∈ p.items, db.food_items.find? (fun f => f.id == i.food_id) = none) :
    ∃ e, (log_meal db p).2 = .error e ∧ e.status = 400 ∧
      (log_meal db p).1.meal_items = db.meal_items ∧
      (log_meal db p).1.meals = db.meals ++
        [{ id := db.next_meal_id, user_id := p.user_id, date := p.date,
           meal_type := p.meal_type, time := p.time, notes := p.notes }] := by
  rcases buildMealItems_error_of_missing db.food_items db.next_meal_id p.items h
      db.next_meal_item_id with ⟨e, he, hs⟩
  refine ⟨e, ?_, hs, ?_, ?_⟩ <;> simp only [log_meal, he]

/-- Witness for C3's amended claim at `badMealReq` on the empty database. -/
theorem log_meal_missing_food_400_witness :
    (∃ i ∈ badMealReq.items,
      emptyDB.food_items.find? (fun f => f.id == i.food_id) = none) ∧
    (∃ e, (log_meal emptyDB badMealReq).2 = .error e ∧ e.status = 400 ∧
      (log_meal emptyDB badMealReq).1.meal_items = emptyDB.meal_items ∧
      (log_meal emptyDB badMealReq).1.meals = emptyDB.meals ++
        [{ id := emptyDB.next_meal_id, user_id := badMealReq.user_id,
           date := badMealReq.date, meal_type := badMealReq.meal_type,
           time := badMealReq.time, notes := badMealReq.notes }]) :=
  ⟨⟨{ food_id := 1, quantity_g := 50 }, List.mem_cons_self .., rfl⟩,
   log_meal_missing_food_400 emptyDB badMealReq
     ⟨{ food_id := 1, quantity_g := 50 }, List.mem_cons_self .., rfl⟩⟩

/-- C4 counterexample: a successful POST /meals (here `mealReq` against
`dbFoods`) leaves the daily_log table untouched — no row for (1, 10) is
created and no calories_in_kcal counter is updated. -/
theorem log_meal_counterexample_no_daily_log :
    (log_meal dbFoods mealReq).2 = Except.ok 1 ∧
    dbFoods.daily_log = [] ∧
    (log_meal dbFoods mealReq).1.daily_log = [] :=
  ⟨rfl, rfl, rfl⟩

/-- C4 amended: POST /weight and POST /training each create the day's
daily_log row when absent or update its counters when present, but POST
/meals never touches the daily_log table, and no handler ever sets
calories_in_kcal, which stays null in every reachable state. -/
theorem daily_log_mutation_by_handlers (today : Nat) (db : DB)
    (m : MealCreate) (w : WeightLogCreate) (t : TrainingSessionCreate) :
    ((log_meal db m).1).daily_log = db.daily_log ∧
    (dayRows db w.user_id (w.date_time.getD today) = [] →
      dayRows (log_weight today db w) w.user_id (w.date_time.getD today) =
        [{ id := db.next_daily_log_id, user_id := w.user_id,
           date := w.date_time.getD today, body_weight_kg := some w.weight_kg }]) ∧
    (∀ r, dayRows db w.user_id (w.date_time.getD today) = [r] →
      dayRows (log_weight today db w) w.user_id (w.date_time.getD today) =
        [{ r with body_weight_kg := some w.weight_kg }]) ∧
    (dayRows db t.user_id t.date = [] →
      dayRows (log_training db t) t.user_id t.date =
        [{ id := db.next_daily_log_id, user_id := t.user_id, date := t.date,
           calories_out_training_kcal := some (t.calories_kcal.getD 0) }]) ∧
    (∀ r, dayRows db t.user_id t.date = [r] →
      dayRows (log_training db t) t.user_id t.date =
        [{ r with calories_out_training_kcal :=
                      some (r.calories_out_training_kcal.getD 0
                        + t.calories_kcal.getD 0) }]) ∧
    (∀ rs : List Request, ∀ r ∈ (runRequests rs).daily_log,
      r.calories_in_kcal = none) := by
  refine ⟨log_meal_daily_log_unchanged db m,
    dayRows_log_weight_create today db w,
    fun r h => dayRows_log_weight_update today db w r h,
    dayRows_log_training_create db t,
    fun r h => dayRows_log_training_update db t r h, ?_⟩
  have step : ∀ (db : DB) (req : Request),
      (∀ r ∈ db.daily_log, r.calories_in_kcal = none) →
      ∀ r ∈ (applyRequest db req).daily_log, r.calories_in_kcal = none := by
    intro db req hdb
    cases req with
    | user p => exact hdb
    | weight today p =>
      rw [applyRequest, log_weight]
      cases findDaily db p.user_id (p.date_time.getD today) with
      | none =>
        intro r hr
        rcases List.mem_append.mp hr with h1 | h2
        · exact hdb r h1
        · rcases List.mem_singleton.mp h2 with rfl
          rfl
      | some x =>
        intro r hr
        rcases mem_updateFirst hr with h1 | ⟨y, hy, rfl⟩
        · exact hdb r h1
        · exact hdb y hy
    | meal p =>
      rw [applyRequest, log_meal_daily_log_unchanged]
      exact hdb
    | training p =>
      rw [applyRequest, log_training]
      cases findDaily db p.user_id p.date with
      | none =>
        intro r hr
        rcases List.mem_append.mp hr with h1 | h2
        · exact hdb r h1
        · rcases List.mem_singleton.mp h2 with rfl
          rfl
      | some x =>
        intro r hr
        rcases mem_updateFirst hr with h1 | ⟨y, hy, rfl⟩
        · exact hdb r h1
        · exact hdb y hy
    | sleep p => exact hdb
    | ansReading p => exact hdb
    | feel p => exact hdb
    | targets p =>
      rw [applyRequest, set_daily_targets_daily_log_unchanged]
      exact hdb
  intro rs
  rw [runRequests]
  have main : ∀ (l : List Request) (db : DB),
      (∀ r ∈ db.daily_log, r.calories_in_kcal = none) →
      ∀ r ∈ (l.foldl applyRequest db).daily_log, r.calories_in_kcal = none := by
    intro l
    induction l with
    | nil => intro db h; exact h
    | cons req l ih =>
      intro db h
      exact ih (applyRequest db req) (step db req h)
  exact main rs emptyDB (by intro r hr; simp [emptyDB] at hr)

/-- Witness for C4's amended claim: weight then training posts from empty
create and then update the single header row. -/
theorem daily_log_mutation_by_handlers_witness :
    dayRows dbFoods wReq.user_id (wReq.date_time.getD 0) = [] ∧
    dayRows (log_weight 0 dbFoods wReq) wReq.user_id (wReq.date_time.getD 0) =
      [{ id := dbFoods.next_daily_log_id, user_id := wReq.user_id,
         date := wReq.date_time.getD 0, body_weight_kg := some wReq.weight_kg }] :=
  ⟨rfl,
   (daily_log_mutation_by_handlers 0 dbFoods mealReq wReq tReq).2.1 rfl⟩

/-- C9 counterexample: POST /weight for user 1 against the empty database
(no User row with id 1 exists) is not rejected: it inserts the weight_log
row and the daily_log header for the nonexistent user. -/
theorem log_weight_counterexample_no_user_check :
    emptyDB.users = [] ∧
    (log_weight 0 emptyDB wReq).weight_log =
      [{ id := 1, user_id := 1, weight_kg := 80, date_time := 10,
         source := some "manual", note := none }] ∧
    (log_weight 0 emptyDB wReq).daily_log =
      [{ id := 1, user_id := 1, date := 10, body_weight_kg := some 80 }] :=
  ⟨rfl, rfl, rfl⟩

/-- C9 amended: GET /users/\x7bid\x7d returns 404 for a missing user and POST
/meals returns 400 for a missing food, but POST /weight and POST /training
perform no user-existence check at all: they insert their rows for any
user_id whatsoever. -/
theorem missing_reference_behaviour (db : DB) (uid today : Nat) (p : MealCreate)
    (w : WeightLogCreate) (t : TrainingSessionCreate) :
    (db.users.find? (fun x => x.id == uid) = none →
      get_user db uid = .error ⟨404, "User not found"⟩) ∧
    (∀ x, db.users.find? (fun x => x.id == uid) = some x →
      get_user db uid = .ok x) ∧
    ((∃ i ∈ p.items, db.food_items.find? (fun f => f.id == i.food_id) = none) →
      ∃ e, (log_meal db p).2 = .error e ∧ e.status = 400) ∧
    ((log_weight today db w).weight_log = db.weight_log ++
      [{ id := db.next_weight_id, user_id := w.user_id, weight_kg := w.weight_kg,
         date_time := w.date_time.getD today, source := w.source, note := w.note }]) ∧
    ((log_training db t).training_sessions = db.training_sessions ++
      [{ id := db.next_training_id, user_id := t.user_id, date := t.date,
         type := t.type, duration_min := t.duration_min, avg_hr := t.avg_hr,
         max_hr := t.max_hr, calories_kcal := t.calories_kcal, rpe := t.rpe,
         notes := t.notes, start_time := t.start_time, end_time := t.end_time }]) := by
  refine ⟨?_, ?_, ?_, ?_, ?_⟩
  · intro h
    simp [get_user, h]
  · intro x h
    simp [get_user, h]
  · intro h
    rcases buildMealItems_error_of_missing db.food_items db.next_meal_id p.items h
        db.next_meal_item_id with ⟨e, he, hs⟩
    exact ⟨e, by simp only [log_meal, he], hs⟩
  · rw [log_weight]
    cases findDaily db w.user_id (w.date_time.getD today) <;> rfl
  · rw [log_training]
    cases findDaily db t.user_id t.date <;> rfl

/-- Witness for C9's amended claim: user 7 does not exist in the empty
database and GET /users/7 answers 404. -/
theorem missing_reference_behaviour_witness :
    emptyDB.users.find? (fun x => x.id == 7) = none ∧
    get_user emptyDB 7 = .error ⟨404, "User not found"⟩ :=
  ⟨rfl, (missing_reference_behaviour emptyDB 7 0 badMealReq wReq tReq).1 rfl⟩

/-- C6: for every user-creation payload, POST /users creates the User row
and always also creates an associated UserSettings row for that user with
hrv_baseline = 41.0, protein_target_min_g = 160 and
protein_target_max_g = 190. -/
theorem create_user_creates_default_settings (db : DB) (payload : UserCreate) :
    ((create_user db payload).1).users = db.users ++ [(create_user db payload).2] ∧
    (create_user db payload).2.name = payload.name ∧
    ((create_user db payload).1).user_settings = db.user_settings ++
      [{ id := db.next_settings_id
         user_id := (create_user db payload).2.id
         hrv_baseline := some 41
         protein_target_min_g := some 160
         protein_target_max_g := some 190 }] :=
  ⟨rfl, rfl, rfl⟩

/-- C2: the deficit_kcal field of the daily summary equals the stored
daily_log.calculated_deficit_kcal when the (u, d) DailyLog row exists with
that field set, and calories_in_kcal minus training_calories_kcal when the
field is null or the row is absent. -/
theorem daily_summary_deficit_spec (db : DB) (u d : Nat) :
    (∀ r v, dayRows db u d = [r] → r.calculated_deficit_kcal = some v →
      (daily_summary db u d).deficit_kcal = v) ∧
    (∀ r, dayRows db u d = [r] → r.calculated_deficit_kcal = none →
      (daily_summary db u d).deficit_kcal =
        (daily_summary db u d).calories_in_kcal
          - (daily_summary db u d).training_calories_kcal) ∧
    (dayRows db u d = [] →
      (daily_summary db u d).deficit_kcal =
        (daily_summary db u d).calories_in_kcal
          - (daily_summary db u d).training_calories_kcal) := by
  refine ⟨?_, ?_, ?_⟩
  · intro r v h hv
    have hf : db.daily_log.find? (dailyKey u d) = some r := find?_of_filter_singleton h
    simp [daily_summary, findDaily, hf, hv]
  · intro r h hv
    have hf : db.daily_log.find? (dailyKey u d) = some r := find?_of_filter_singleton h
    simp [daily_summary, findDaily, hf, hv]
  · intro h
    have hf : db.daily_log.find? (dailyKey u d) = none := find?_none_of_filter_nil h
    simp [daily_summary, findDaily, hf]

/-- Witness for C2: on `dbOverride` the stored override 250 is returned. -/
theorem daily_summary_deficit_spec_witness :
    dayRows dbOverride 1 10 = [overrideRow] ∧
    overrideRow.calculated_deficit_kcal = some 250 ∧
    (daily_summary dbOverride 1 10).deficit_kcal = 250 :=
  ⟨rfl, rfl, (daily_summary_deficit_spec dbOverride 1 10).1 overrideRow 250 rfl rfl⟩

/-- C8: with no DailyLog row the summary reports training_calories_kcal 0
and a null readiness_state; with a row it reports the row's
calories_out_training_kcal (0 when null) and its readiness_state. -/
theorem daily_summary_training_readiness_spec (db : DB) (u d : Nat) :
    (dayRows db u d = [] →
      (daily_summary db u d).training_calories_kcal = 0 ∧
      (daily_summary db u d).readiness_state = none) ∧
    (∀ r, dayRows db u d = [r] →
      (daily_summary db u d).training_calories_kcal
          = r.calories_out_training_kcal.getD 0 ∧
      (daily_summary db u d).readiness_state = r.readiness_state) := by
  refine ⟨?_, ?_⟩
  · intro h
    have hf : db.daily_log.find? (dailyKey u d) = none := find?_none_of_filter_nil h
    exact ⟨by simp [daily_summary, findDaily, hf], by simp [daily_summary, findDaily, hf]⟩
  · intro r h
    have hf : db.daily_log.find? (dailyKey u d) = some r := find?_of_filter_singleton h
    exact ⟨by simp [daily_summary, findDaily, hf], by simp [daily_summary, findDaily, hf]⟩

/-- Witness for C8: on `dbTrained` the summary reports 600 kcal out and the
stored HIGH readiness. -/
theorem daily_summary_training_readiness_spec_witness :
    dayRows dbTrained 1 10 = [trainedRow] ∧
    (daily_summary dbTrained 1 10).training_calories_kcal
        = trainedRow.calories_out_training_kcal.getD 0 ∧
    (daily_summary dbTrained 1 10).readiness_state = trainedRow.readiness_state :=
  ⟨rfl,
   ((daily_summary_training_readiness_spec dbTrained 1 10).2 trainedRow rfl).1,
   ((daily_summary_training_readiness_spec dbTrained 1 10).2 trainedRow rfl).2⟩

/-- C10: when no meal item is joined to a meal of user u on date d, all four
macro aggregates of the daily summary are exactly 0 (the empty sum is
coalesced to 0, not null) and the endpoint still produces a summary. -/
theorem daily_summary_zero_on_empty_day (db : DB) (u d : Nat)
    (h : ∀ mi ∈ db.meal_items, ∀ m ∈ db.meals,
      mi.meal_id = m.id → ¬(m.user_id = u ∧ m.date = d)) :
    (daily_summary db u d).protein_g = 0 ∧
    (daily_summary db u d).carbs_g = 0 ∧
    (daily_summary db u d).fat_g = 0 ∧
    (daily_summary db u d).calories_in_kcal = 0 := by
  have hrows : joinedRows db u d = [] := by
    rw [joinedRows, List.flatMap_eq_nil_iff]
    intro m hm
    rw [List.mem_filter] at hm
    have hud : m.user_id = u ∧ m.date = d := by
      have h2 := hm.2
      rw [Bool.and_eq_true, beq_iff_eq, beq_iff_eq] at h2
      exact h2
    rw [List.flatMap_eq_nil_iff]
    intro mi hmi
    rw [List.mem_filter] at hmi
    exact absurd hud (h mi hmi.1 m hm.1 (beq_iff_eq.mp hmi.2))
  simp [daily_summary, nutrientSum, hrows]

/-- Witness for C10: user 1 has nothing on day 10 of `dbOtherUser` (only
user 2 has a meal there), and all four aggregates are 0. -/
theorem daily_summary_zero_on_empty_day_witness :
    (∀ mi ∈ dbOtherUser.meal_items, ∀ m ∈ dbOtherUser.meals,
      mi.meal_id = m.id → ¬(m.user_id = 1 ∧ m.date = 10)) ∧
    (daily_summary dbOtherUser 1 10).protein_g = 0 ∧
    (daily_summary dbOtherUser 1 10).calories_in_kcal = 0 := by
  refine ⟨by decide, ?_, ?_⟩
  · exact (daily_summary_zero_on_empty_day dbOtherUser 1 10 (by decide)).1
  · exact (daily_summary_zero_on_empty_day dbOtherUser 1 10 (by decide)).2.2.2

/-- The four aggregates the summary query computes over the inner join
coincide with the claimed per-item totals, provided meal ids and food ids
are unique (they are primary keys). -/
theorem nutrientSum_eq_claimed (db : DB) (u d : Nat) (nutr : FoodItem → ℚ)
    (hm : (db.meals.map Meal.id).Nodup)
    (hf : (db.food_items.map FoodItem.id).Nodup) :
    nutrientSum (joinedRows db u d) nutr = claimedNutrientTotal db u d nutr := by
  rw [nutrientSum, joinedRows, claimedNutrientTotal]
  simp only [sum_map_flatMap, List.map_map]
  have hfood : ∀ mi : MealItem,
      ((db.food_items.filter (fun f => f.id == mi.food_id)).map
        ((fun r : MealItem × FoodItem => nutr r.2 * r.1.quantity_g / 100) ∘
          (fun f => (mi, f)))).sum = itemNutrient db nutr mi := by
    intro mi
    rw [filter_eq_find?_toList_of_key FoodItem.id (fun f => f.id == mi.food_id)
        mi.food_id (fun x hx => beq_iff_eq.mp hx) db.food_items hf,
      sum_map_toList, itemNutrient]
    cases List.find? (fun f => f.id == mi.food_id) db.food_items <;> rfl
  simp only [hfood]
  have hinner : ∀ m : Meal,
      ((db.meal_items.filter (fun mi => mi.meal_id == m.id)).map
        (itemNutrient db nutr)).sum =
      (db.meal_items.map
        (fun mi => if mi.meal_id == m.id then itemNutrient db nutr mi else 0)).sum :=
    fun m => sum_map_filter_eq_ite _ _ _
  simp only [hinner]
  rw [sum_map_swap]
  refine congrArg List.sum (List.map_congr_left ?_)
  intro mi _
  rw [← sum_map_filter_eq_ite (fun m : Meal => mi.meal_id == m.id)
      (fun _ => itemNutrient db nutr mi)]
  rw [List.filter_filter]
  rw [filter_eq_find?_toList_of_key Meal.id
      (fun a : Meal => (mi.meal_id == a.id) && (a.user_id == u && a.date == d))
      mi.meal_id
      (fun x hx => by
        simp only [Bool.and_eq_true] at hx
        exact (beq_iff_eq.mp hx.1).symm)
      db.meals hm,
    sum_map_toList]
  have hpred : List.find?
      (fun a : Meal => (mi.meal_id == a.id) && (a.user_id == u && a.date == d))
        db.meals
      = List.find?
        (fun m : Meal => m.user_id == u && m.date == d && mi.meal_id == m.id)
        db.meals :=
    find?_congr_pred db.meals (fun a => by
      cases h1 : (mi.meal_id == a.id) <;> cases h2 : (a.user_id == u) <;>
        cases h3 : (a.date == d) <;> simp [h1, h2, h3])
  rw [hpred]
  cases List.find?
      (fun m : Meal => m.user_id == u && m.date == d && mi.meal_id == m.id)
      db.meals <;> rfl

/-- C1: for every user, date and database state (with the primary-key
uniqueness of meal and food ids), the daily summary's protein_g equals the
sum over all meal items of meals of that user and date of
food.protein_g * item.quantity_g / 100, and likewise carbs_g, fat_g and
calories_in_kcal from food.carbs_g, food.fat_g and food.kcal. -/
theorem daily_summary_macros_eq_claimed (db : DB) (u d : Nat)
    (hm : (db.meals.map Meal.id).Nodup)
    (hf : (db.food_items.map FoodItem.id).Nodup) :
    (daily_summary db u d).protein_g
        = claimedNutrientTotal db u d FoodItem.protein_g ∧
    (daily_summary db u d).carbs_g
        = claimedNutrientTotal db u d FoodItem.carbs_g ∧
    (daily_summary db u d).fat_g
        = claimedNutrientTotal db u d FoodItem.fat_g ∧
    (daily_summary db u d).calories_in_kcal
        = claimedNutrientTotal db u d FoodItem.kcal :=
  ⟨nutrientSum_eq_claimed db u d FoodItem.protein_g hm hf,
   nutrientSum_eq_claimed db u d FoodItem.carbs_g hm hf,
   nutrientSum_eq_claimed db u d FoodItem.fat_g hm hf,
   nutrientSum_eq_claimed db u d FoodItem.kcal hm hf⟩

/-- Witness for C1: the logged two-item meal of `dbMeals` (200 g rice,
150 g chicken) satisfies the key-uniqueness hypotheses, and the summary's
macros agree with the claimed per-item totals. -/
theorem daily_summary_macros_eq_claimed_witness :
    (dbMeals.meals.map Meal.id).Nodup ∧
    (dbMeals.food_items.map FoodItem.id).Nodup ∧
    (daily_summary dbMeals 1 10).protein_g
        = claimedNutrientTotal dbMeals 1 10 FoodItem.protein_g ∧
    (daily_summary dbMeals 1 10).calories_in_kcal
        = claimedNutrientTotal dbMeals 1 10 FoodItem.kcal :=
  ⟨by decide, by decide,
   (daily_summary_macros_eq_claimed dbMeals 1 10 (by decide) (by decide)).1,
   (daily_summary_macros_eq_claimed dbMeals 1 10 (by decide) (by decide)).2.2.2⟩

end SpyPerf
